import Mathlib

/-
Verification development for the QR-session manager of `src/bot.py`
(class `SessionManager`, lines 270-407, together with the database row
accessor `Database.get_api_by_id`).

The registry `SessionManager.active_qr_sessions` is a Python dict keyed by
`user_id`; it is embedded as an association list with dict semantics.  All
external effects (network connect, qr_login, waiting for the scan, the
authorization check, `get_me`, `db.save_session`, `client.disconnect`) are
resolved by an explicit environment `Env`, and each operation additionally
returns the list of effect events it performed, in program order.
-/

namespace RassylkaBot

/-- A row of the `api_configs` table as returned by `Database.get_api_by_id`
(src/bot.py:166-173): `SELECT id, name, api_id, api_hash`. -/
structure ApiConfig where
  id : Nat
  api_name : String
  api_id : Nat
  api_hash : String
deriving Repr, DecidableEq

/-- Embedding of `Database.get_api_by_id`: the row whose primary key equals
the requested id, or `none`. -/
def get_api_by_id (db : List ApiConfig) (cfgId : Nat) : Option ApiConfig :=
  db.find? (fun c => c.id == cfgId)

/-- A device fingerprint from the hard-coded `devices` list
(src/bot.py:293-309). -/
structure DeviceProfile where
  device_model : String
  system_version : String
  app_version : String
deriving Repr, DecidableEq

/-- The fixed three-element device list of `create_qr_session`
(src/bot.py:293-309). -/
def devices : List DeviceProfile :=
  [⟨"Samsung SM-G991B", "Android 13", "10.0.0"⟩,
   ⟨"iPhone15,3", "iOS 17.1.2", "10.0.0"⟩,
   ⟨"Desktop", "Windows 10", "4.0.0"⟩]

/-- Embedding of `random.choice(devices)` (src/bot.py:311): the random draw
is resolved by an index supplied by the environment. -/
def randomChoice (idx : Nat) : DeviceProfile :=
  devices.getD (idx % devices.length) ⟨"", "", ""⟩

/-- The dict stored at `active_qr_sessions[user_id]` (src/bot.py:321-328).
The connection handle (`client`) is identified by a natural number; the
`message` reference is likewise opaque. -/
structure QrSession where
  client : Nat
  qr_url : String
  api_config_id : Nat
  api_name : String
  created_at : Nat
  message : Nat
deriving Repr, DecidableEq

/-- The registry `active_qr_sessions`: an association list from user id to
session with unique keys, mirroring a Python dict. -/
abbrev Registry := List (Nat × QrSession)

/-- Dict lookup `reg[uid]` / `uid in reg`. -/
def dictGet : Registry → Nat → Option QrSession
  | [], _ => none
  | p :: rest, uid => if p.1 = uid then some p.2 else dictGet rest uid

/-- Dict assignment `reg[uid] = v`: replace in place when the key is
present, append otherwise. -/
def dictInsert : Registry → Nat → QrSession → Registry
  | [], uid, v => [(uid, v)]
  | p :: rest, uid, v =>
      if p.1 = uid then (uid, v) :: rest else p :: dictInsert rest uid v

/-- Dict deletion `del reg[uid]` (on unique-key registries this removes the
single entry for `uid`). -/
def dictErase : Registry → Nat → Registry
  | [], _ => []
  | p :: rest, uid =>
      if p.1 = uid then dictErase rest uid else p :: dictErase rest uid

/-- The keys of the registry. -/
def regKeys (reg : Registry) : List Nat := reg.map Prod.fst

/-- Effect events, in program order, emitted by the session-manager
operations. `disconnect c` records an attempted `await <c>.disconnect()`,
whether or not it raised. -/
inductive Ev where
  | disconnect (client : Nat)
  | connect (client : Nat)
  | qrLoginStart (client : Nat)
  | store (uid client : Nat)
  | logAction (uid : Nat)
  | waitScan (uid : Nat)
  | sleepGrace
  | checkAuth (client : Nat)
  | fetchIdentity (client : Nat)
  | persist (uid : Nat)
  | removeEntry (uid : Nat)
deriving Repr, DecidableEq

/-- Resolution of all external effects for one run.  Fields, in order:
device draw index; whether `client.connect()` succeeds; whether
`client.qr_login()` succeeds; the `qr_login.url`; the instant (seconds) at
which `qr_login.wait()` completes (`none` = never); the result of
`is_user_authorized()`; the value of `client.session.save()`; whether
`get_me()` succeeds; `me.id` and `me.phone` when it does; whether
`db.save_session` succeeds; whether the confirmed-path
`client.disconnect()` raises; whether the eviction disconnect in
`create_qr_session` raises (swallowed by its bare except); whether the
disconnect inside `cleanup_session` raises (swallowed); the clock value for
`datetime.now()`. -/
structure Env where
  deviceIdx : Nat
  connectOk : Bool
  qrLoginOk : Bool
  qrUrl : String
  signalAt : Option Nat
  authorized : Bool
  sessionString : String
  identityOk : Bool
  telegramId : Nat
  phoneNumber : String
  saveOk : Bool
  disconnectRaises : Bool
  evictDisconnectRaises : Bool
  cleanupDisconnectRaises : Bool
  now : Nat
deriving Repr, DecidableEq

/-- The literal `timeout=120` of `asyncio.wait_for` (src/bot.py:347). -/
def QR_WAIT_TIMEOUT : Nat := 120

/-- The literal `asyncio.sleep(3)` grace period (src/bot.py:350). -/
def CONFIRM_GRACE_SLEEP : Nat := 3

/-- Whether `qr_login.wait()` completes before `asyncio.wait_for` raises
`TimeoutError`. -/
def signalWithinTimeout (env : Env) : Bool :=
  match env.signalAt with
  | some t => decide (t ≤ QR_WAIT_TIMEOUT)
  | none => false

/-- Wall-clock seconds the waiter spends blocked in `asyncio.wait_for`. -/
def waitDuration (env : Env) : Nat :=
  match env.signalAt with
  | some t => min t QR_WAIT_TIMEOUT
  | none => QR_WAIT_TIMEOUT

/-- Return value of `create_qr_session`: `(True, qr_login.url)`,
`(False, "API config not found")`, or `(False, f"Error: ...")` from the
blanket except handler; the error tag names the raising call. -/
inductive StartResult where
  | ok (qrUrl : String)
  | apiNotFound
  | error (tag : String)
deriving Repr, DecidableEq

/-- Return value of `wait_for_qr_scan`: session missing, the confirmed
payload dict, the not-authorized early return, the timeout message, or the
blanket except handler message; the error tag names the raising call. -/
inductive WaitResult where
  | sessionNotFound
  | confirmed (session_string : String) (telegram_id : Option Nat)
      (phone_number : Option String) (api_name : String)
  | authIncomplete
  | timedOut
  | error (tag : String)
deriving Repr, DecidableEq

/-- The prior-session eviction step of `create_qr_session`
(src/bot.py:286-290): when an entry exists, its client disconnect is
attempted (a raise is swallowed by the bare except) and the entry is left
in place. -/
def evictTrace (reg : Registry) (user_id : Nat) : List Ev :=
  match dictGet reg user_id with
  | some old => [Ev.disconnect old.client]
  | none => []

/-- Embedding of `SessionManager.create_qr_session` (src/bot.py:275-336).
Steps, mirroring the source: resolve the api config (early return when
absent); attempt a disconnect of the prior client when an entry exists
(entry not removed); draw a device via `randomChoice env.deviceIdx`;
connect the fresh client `newClient`; start the qr login; store the new
session dict, overwriting any prior entry; log.  A raise in connect or
qr_login is caught by the blanket except and returned as an error, with no
further cleanup. -/
def create_qr_session (db : List ApiConfig) (reg : Registry) (env : Env)
    (user_id api_config_id : Nat) (message : Nat) (newClient : Nat) :
    Registry × StartResult × List Ev :=
  match get_api_by_id db api_config_id with
  | none => (reg, .apiNotFound, [])
  | some cfg =>
      if env.connectOk then
        if env.qrLoginOk then
          (dictInsert reg user_id
             ⟨newClient, env.qrUrl, api_config_id, cfg.api_name, env.now, message⟩,
           .ok env.qrUrl,
           evictTrace reg user_id ++
             [Ev.connect newClient, Ev.qrLoginStart newClient,
              Ev.store user_id newClient, Ev.logAction user_id])
        else
          (reg, .error "qr_login",
           evictTrace reg user_id ++
             [Ev.connect newClient, Ev.qrLoginStart newClient])
      else
        (reg, .error "connect",
         evictTrace reg user_id ++ [Ev.connect newClient])

/-- Embedding of `SessionManager.cleanup_session` (src/bot.py:400-407):
when an entry exists, attempt its client disconnect (a raise is swallowed)
and delete the entry.  The environment is unused because no outcome of the
disconnect changes control flow. -/
def cleanup_session (env : Env) (reg : Registry) (user_id : Nat) :
    Registry × List Ev :=
  match dictGet reg user_id with
  | none => (reg, [])
  | some data => (dictErase reg user_id,
                  [Ev.disconnect data.client, Ev.removeEntry user_id])

/-- Embedding of `SessionManager.wait_for_qr_scan` (src/bot.py:338-398).
Branches, mirroring the source: missing entry; `TimeoutError` from
`asyncio.wait_for` handled by `cleanup_session`; the not-authorized early
return (no cleanup); a raise from `db.save_session` handled by the blanket
except plus `cleanup_session`; a raise from the confirmed-path
`client.disconnect()` handled the same way (the credential was already
persisted); the confirmed return. -/
def wait_for_qr_scan (reg : Registry) (env : Env) (user_id : Nat) :
    Registry × WaitResult × List Ev :=
  match dictGet reg user_id with
  | none => (reg, .sessionNotFound, [])
  | some data =>
      if signalWithinTimeout env then
        if env.authorized then
          if env.saveOk then
            if env.disconnectRaises then
              ((cleanup_session env reg user_id).1, .error "disconnect",
               [Ev.waitScan user_id, Ev.sleepGrace, Ev.checkAuth data.client,
                Ev.fetchIdentity data.client, Ev.persist user_id,
                Ev.disconnect data.client] ++ (cleanup_session env reg user_id).2)
            else
              (dictErase reg user_id,
               .confirmed env.sessionString
                 (if env.identityOk then some env.telegramId else none)
                 (if env.identityOk then some env.phoneNumber else none)
                 data.api_name,
               [Ev.waitScan user_id, Ev.sleepGrace, Ev.checkAuth data.client,
                Ev.fetchIdentity data.client, Ev.persist user_id,
                Ev.disconnect data.client, Ev.removeEntry user_id])
          else
            ((cleanup_session env reg user_id).1, .error "save",
             [Ev.waitScan user_id, Ev.sleepGrace, Ev.checkAuth data.client,
              Ev.fetchIdentity data.client] ++ (cleanup_session env reg user_id).2)
        else
          (reg, .authIncomplete,
           [Ev.waitScan user_id, Ev.sleepGrace, Ev.checkAuth data.client])
      else
        ((cleanup_session env reg user_id).1, .timedOut,
         [Ev.waitScan user_id] ++ (cleanup_session env reg user_id).2)

/-- Copy of an environment with the eviction-disconnect raise flag set. -/
def setEvictDisconnectRaises (env : Env) (b : Bool) : Env :=
  ⟨env.deviceIdx, env.connectOk, env.qrLoginOk, env.qrUrl, env.signalAt,
   env.authorized, env.sessionString, env.identityOk, env.telegramId,
   env.phoneNumber, env.saveOk, env.disconnectRaises, b,
   env.cleanupDisconnectRaises, env.now⟩

/-- Copy of an environment with the cleanup-disconnect raise flag set. -/
def setCleanupDisconnectRaises (env : Env) (b : Bool) : Env :=
  ⟨env.deviceIdx, env.connectOk, env.qrLoginOk, env.qrUrl, env.signalAt,
   env.authorized, env.sessionString, env.identityOk, env.telegramId,
   env.phoneNumber, env.saveOk, env.disconnectRaises,
   env.evictDisconnectRaises, b, env.now⟩

/-- Sample in-flight session: handle 5, opened from api config 1. -/
def sampleSession : QrSession :=
  ⟨5, "tg://login?token=old", 1, "main", 0, 0⟩

/-- Sample registry holding one session, for user 7. -/
def sampleReg : Registry := [(7, sampleSession)]

/-- Sample api-config table with the single row 1. -/
def sampleDb : List ApiConfig := [⟨1, "main", 12345, "0123abcd"⟩]

/-- Environment of a fully successful run: signal at 5 s, authorized,
identity fetch succeeds, save succeeds, no disconnect raises. -/
def baseEnv : Env :=
  ⟨0, true, true, "tg://login?token=new", some 5, true, "1BVtsession", true,
   555001, "+15550100", true, false, false, false, 0⟩

/-- Like `baseEnv` but the authorization check reports not authorized. -/
def envAuthFail : Env :=
  ⟨0, true, true, "tg://login?token=new", some 5, false, "1BVtsession", true,
   555001, "+15550100", true, false, false, false, 0⟩

/-- Like `baseEnv` but the confirmation signal never arrives. -/
def envNoSignal : Env :=
  ⟨0, true, true, "tg://login?token=new", none, true, "1BVtsession", true,
   555001, "+15550100", true, false, false, false, 0⟩

/-- Like `baseEnv` but the confirmed-path disconnect raises. -/
def envDiscRaise : Env :=
  ⟨0, true, true, "tg://login?token=new", some 5, true, "1BVtsession", true,
   555001, "+15550100", true, true, false, false, 0⟩

/-- Like `baseEnv` but the identity fetch (`get_me`) raises. -/
def envIdFail : Env :=
  ⟨0, true, true, "tg://login?token=new", some 5, true, "1BVtsession", false,
   555001, "+15550100", true, false, false, false, 0⟩

/-- Like `baseEnv` but `client.qr_login()` raises after a successful
connect. -/
def envQrFail : Env :=
  ⟨0, true, false, "tg://login?token=new", some 5, true, "1BVtsession", true,
   555001, "+15550100", true, false, false, false, 0⟩

/- ===================== helper lemmas ===================== -/

theorem dictGet_mem {reg : Registry} {uid : Nat} {s : QrSession}
    (h : dictGet reg uid = some s) : (uid, s) ∈ reg := by
  induction reg with
  | nil => simp [dictGet] at h
  | cons p rest ih =>
      rw [dictGet] at h
      by_cases hp : p.1 = uid
      · rw [if_pos hp] at h
        cases p with
        | mk a b =>
            cases hp
            cases Option.some.inj h
            exact List.mem_cons_self _ _
      · rw [if_neg hp] at h
        exact List.mem_cons_of_mem _ (ih h)

theorem nodup_keys_cons {p : Nat × QrSession} {rest : Registry}
    (h : (regKeys (p :: rest)).Nodup) :
    p.1 ∉ regKeys rest ∧ (regKeys rest).Nodup := by
  simp only [regKeys, List.map_cons, List.nodup_cons] at h
  exact ⟨h.1, h.2⟩

theorem nodup_keys_cons_mk {p : Nat × QrSession} {rest : Registry}
    (h1 : p.1 ∉ regKeys rest) (h2 : (regKeys rest).Nodup) :
    (regKeys (p :: rest)).Nodup := by
  simp only [regKeys, List.map_cons, List.nodup_cons]
  exact ⟨h1, h2⟩

theorem mem_regKeys_cons {p : Nat × QrSession} {rest : Registry} {x : Nat} :
    x ∈ regKeys (p :: rest) ↔ x = p.1 ∨ x ∈ regKeys rest := by
  simp only [regKeys, List.map_cons, List.mem_cons]

theorem dictGet_dictErase_self (reg : Registry) (uid : Nat) :
    dictGet (dictErase reg uid) uid = none := by
  induction reg with
  | nil => rfl
  | cons p rest ih =>
      rw [dictErase]
      by_cases hp : p.1 = uid
      · rw [if_pos hp]; exact ih
      · rw [if_neg hp, dictGet, if_neg hp]; exact ih

theorem mem_regKeys_dictInsert {reg : Registry} {uid x : Nat} {v : QrSession}
    (h : x ∈ regKeys (dictInsert reg uid v)) : x = uid ∨ x ∈ regKeys reg := by
  induction reg with
  | nil =>
      rw [dictInsert] at h
      rcases mem_regKeys_cons.mp h with h1 | h1
      · exact Or.inl h1
      · exact absurd h1 (by simp [regKeys])
  | cons p rest ih =>
      rw [dictInsert] at h
      by_cases hp : p.1 = uid
      · rw [if_pos hp] at h
        rcases mem_regKeys_cons.mp h with h1 | h1
        · exact Or.inl h1
        · exact Or.inr (mem_regKeys_cons.mpr (Or.inr h1))
      · rw [if_neg hp] at h
        rcases mem_regKeys_cons.mp h with h1 | h1
        · exact Or.inr (mem_regKeys_cons.mpr (Or.inl h1))
        · rcases ih h1 with h2 | h2
          · exact Or.inl h2
          · exact Or.inr (mem_regKeys_cons.mpr (Or.inr h2))

theorem mem_regKeys_dictErase {reg : Registry} {uid x : Nat}
    (h : x ∈ regKeys (dictErase reg uid)) : x ∈ regKeys reg := by
  induction reg with
  | nil => simpa [dictErase, regKeys] using h
  | cons p rest ih =>
      rw [dictErase] at h
      by_cases hp : p.1 = uid
      · rw [if_pos hp] at h
        exact mem_regKeys_cons.mpr (Or.inr (ih h))
      · rw [if_neg hp] at h
        rcases mem_regKeys_cons.mp h with h1 | h1
        · exact mem_regKeys_cons.mpr (Or.inl h1)
        · exact mem_regKeys_cons.mpr (Or.inr (ih h1))

theorem nodup_regKeys_dictInsert {reg : Registry} {uid : Nat} {v : QrSession}
    (h : (regKeys reg).Nodup) : (regKeys (dictInsert reg uid v)).Nodup := by
  induction reg with
  | nil => simp [dictInsert, regKeys]
  | cons p rest ih =>
      rcases nodup_keys_cons h with ⟨hp, hrest⟩
      rw [dictInsert]
      by_cases hpe : p.1 = uid
      · rw [if_pos hpe]
        exact nodup_keys_cons_mk (hpe ▸ hp) hrest
      · rw [if_neg hpe]
        refine nodup_keys_cons_mk ?_ (ih hrest)
        intro hmem
        rcases mem_regKeys_dictInsert hmem with h1 | h1
        · exact hpe h1
        · exact hp h1

theorem nodup_regKeys_dictErase {reg : Registry} {uid : Nat}
    (h : (regKeys reg).Nodup) : (regKeys (dictErase reg uid)).Nodup := by
  induction reg with
  | nil => simp [dictErase, regKeys]
  | cons p rest ih =>
      rcases nodup_keys_cons h with ⟨hp, hrest⟩
      rw [dictErase]
      by_cases hpe : p.1 = uid
      · rw [if_pos hpe]; exact ih hrest
      · rw [if_neg hpe]
        refine nodup_keys_cons_mk ?_ (ih hrest)
        intro hmem
        exact hp (mem_regKeys_dictErase hmem)

theorem nodup_atMostOne {reg : Registry} (h : (regKeys reg).Nodup) (u : Nat) :
    (reg.filter (fun p => p.1 == u)).length ≤ 1 := by
  induction reg with
  | nil => simp
  | cons p rest ih =>
      rcases nodup_keys_cons h with ⟨hp, hrest⟩
      by_cases hpe : p.1 = u
      · have hnil : rest.filter (fun q => q.1 == u) = [] := by
          refine List.filter_eq_nil_iff.mpr ?_
          intro q hq
          simp only [beq_iff_eq]
          intro hqu
          apply hp
          have hmem : q.1 ∈ regKeys rest := List.mem_map_of_mem Prod.fst hq
          rwa [hqu, ← hpe] at hmem
        simp [List.filter_cons, hpe, hnil]
      · have hrec := ih hrest
        simpa [List.filter_cons, hpe] using hrec

theorem evictTrace_present {reg : Registry} {uid : Nat} {s : QrSession}
    (hs : dictGet reg uid = some s) :
    evictTrace reg uid = [Ev.disconnect s.client] := by
  unfold evictTrace
  rw [hs]

theorem evictTrace_absent {reg : Registry} {uid : Nat}
    (hs : dictGet reg uid = none) : evictTrace reg uid = [] := by
  unfold evictTrace
  rw [hs]

theorem create_eq_notFound {db : List ApiConfig} {reg : Registry} {env : Env}
    {uid cfgId message newClient : Nat}
    (hcfg : get_api_by_id db cfgId = none) :
    create_qr_session db reg env uid cfgId message newClient =
      (reg, StartResult.apiNotFound, []) := by
  unfold create_qr_session
  rw [hcfg]

theorem create_eq_connectFail {db : List ApiConfig} {reg : Registry} {env : Env}
    {uid cfgId message newClient : Nat} {cfg : ApiConfig}
    (hcfg : get_api_by_id db cfgId = some cfg)
    (hc : env.connectOk = false) :
    create_qr_session db reg env uid cfgId message newClient =
      (reg, StartResult.error "connect",
       evictTrace reg uid ++ [Ev.connect newClient]) := by
  unfold create_qr_session
  rw [hcfg, hc]
  rfl

theorem create_eq_qrLoginFail {db : List ApiConfig} {reg : Registry} {env : Env}
    {uid cfgId message newClient : Nat} {cfg : ApiConfig}
    (hcfg : get_api_by_id db cfgId = some cfg)
    (hc : env.connectOk = true) (hq : env.qrLoginOk = false) :
    create_qr_session db reg env uid cfgId message newClient =
      (reg, StartResult.error "qr_login",
       evictTrace reg uid ++ [Ev.connect newClient, Ev.qrLoginStart newClient]) := by
  unfold create_qr_session
  rw [hcfg, hc, hq]
  rfl

theorem create_eq_ok {db : List ApiConfig} {reg : Registry} {env : Env}
    {uid cfgId message newClient : Nat} {cfg : ApiConfig}
    (hcfg : get_api_by_id db cfgId = some cfg)
    (hc : env.connectOk = true) (hq : env.qrLoginOk = true) :
    create_qr_session db reg env uid cfgId message newClient =
      (dictInsert reg uid
         ⟨newClient, env.qrUrl, cfgId, cfg.api_name, env.now, message⟩,
       StartResult.ok env.qrUrl,
       evictTrace reg uid ++
         [Ev.connect newClient, Ev.qrLoginStart newClient,
          Ev.store uid newClient, Ev.logAction uid]) := by
  unfold create_qr_session
  rw [hcfg, hc, hq]
  rfl

theorem cleanup_eq_absent {env : Env} {reg : Registry} {uid : Nat}
    (hs : dictGet reg uid = none) :
    cleanup_session env reg uid = (reg, []) := by
  unfold cleanup_session
  rw [hs]

theorem cleanup_eq_present {env : Env} {reg : Registry} {uid : Nat}
    {s : QrSession} (hs : dictGet reg uid = some s) :
    cleanup_session env reg uid =
      (dictErase reg uid, [Ev.disconnect s.client, Ev.removeEntry uid]) := by
  unfold cleanup_session
  rw [hs]

theorem wait_eq_notFound {reg : Registry} {env : Env} {uid : Nat}
    (hs : dictGet reg uid = none) :
    wait_for_qr_scan reg env uid = (reg, WaitResult.sessionNotFound, []) := by
  unfold wait_for_qr_scan
  rw [hs]

theorem wait_eq_timeout {reg : Registry} {env : Env} {uid : Nat} {s : QrSession}
    (hs : dictGet reg uid = some s)
    (h1 : signalWithinTimeout env = false) :
    wait_for_qr_scan reg env uid =
      (dictErase reg uid, WaitResult.timedOut,
       [Ev.waitScan uid, Ev.disconnect s.client, Ev.removeEntry uid]) := by
  unfold wait_for_qr_scan
  rw [hs, cleanup_eq_present hs, h1]
  rfl

theorem wait_eq_authIncomplete {reg : Registry} {env : Env} {uid : Nat}
    {s : QrSession} (hs : dictGet reg uid = some s)
    (h1 : signalWithinTimeout env = true) (h2 : env.authorized = false) :
    wait_for_qr_scan reg env uid =
      (reg, WaitResult.authIncomplete,
       [Ev.waitScan uid, Ev.sleepGrace, Ev.checkAuth s.client]) := by
  unfold wait_for_qr_scan
  rw [hs, h1, h2]
  rfl

theorem wait_eq_saveFail {reg : Registry} {env : Env} {uid : Nat}
    {s : QrSession} (hs : dictGet reg uid = some s)
    (h1 : signalWithinTimeout env = true) (h2 : env.authorized = true)
    (h3 : env.saveOk = false) :
    wait_for_qr_scan reg env uid =
      (dictErase reg uid, WaitResult.error "save",
       [Ev.waitScan uid, Ev.sleepGrace, Ev.checkAuth s.client,
        Ev.fetchIdentity s.client, Ev.disconnect s.client,
        Ev.removeEntry uid]) := by
  unfold wait_for_qr_scan
  rw [hs, cleanup_eq_present hs, h1, h2, h3]
  rfl

theorem wait_eq_disconnectFail {reg : Registry} {env : Env} {uid : Nat}
    {s : QrSession} (hs : dictGet reg uid = some s)
    (h1 : signalWithinTimeout env = true) (h2 : env.authorized = true)
    (h3 : env.saveOk = true) (h4 : env.disconnectRaises = true) :
    wait_for_qr_scan reg env uid =
      (dictErase reg uid, WaitResult.error "disconnect",
       [Ev.waitScan uid, Ev.sleepGrace, Ev.checkAuth s.client,
        Ev.fetchIdentity s.client, Ev.persist uid, Ev.disconnect s.client,
        Ev.disconnect s.client, Ev.removeEntry uid]) := by
  unfold wait_for_qr_scan
  rw [hs, cleanup_eq_present hs, h1, h2, h3, h4]
  rfl

theorem wait_eq_confirmed {reg : Registry} {env : Env} {uid : Nat}
    {s : QrSession} (hs : dictGet reg uid = some s)
    (h1 : signalWithinTimeout env = true) (h2 : env.authorized = true)
    (h3 : env.saveOk = true) (h4 : env.disconnectRaises = false) :
    wait_for_qr_scan reg env uid =
      (dictErase reg uid,
       WaitResult.confirmed env.sessionString
         (if env.identityOk then some env.telegramId else none)
         (if env.identityOk then some env.phoneNumber else none)
         s.api_name,
       [Ev.waitScan uid, Ev.sleepGrace, Ev.checkAuth s.client,
        Ev.fetchIdentity s.client, Ev.persist uid, Ev.disconnect s.client,
        Ev.removeEntry uid]) := by
  unfold wait_for_qr_scan
  rw [hs, h1, h2, h3, h4]
  rfl

theorem create_registry_shape (db : List ApiConfig) (reg : Registry) (env : Env)
    (uid cfgId message newClient : Nat) :
    (create_qr_session db reg env uid cfgId message newClient).1 = reg ∨
    ∃ s, (create_qr_session db reg env uid cfgId message newClient).1 =
      dictInsert reg uid s := by
  cases hcfg : get_api_by_id db cfgId with
  | none => rw [create_eq_notFound hcfg]; exact Or.inl rfl
  | some cfg =>
      cases hc : env.connectOk with
      | false => rw [create_eq_connectFail hcfg hc]; exact Or.inl rfl
      | true =>
          cases hq : env.qrLoginOk with
          | false => rw [create_eq_qrLoginFail hcfg hc hq]; exact Or.inl rfl
          | true => rw [create_eq_ok hcfg hc hq]; exact Or.inr ⟨_, rfl⟩

theorem cleanup_registry_shape (env : Env) (reg : Registry) (uid : Nat) :
    (cleanup_session env reg uid).1 = reg ∨
    (cleanup_session env reg uid).1 = dictErase reg uid := by
  cases hs : dictGet reg uid with
  | none => rw [cleanup_eq_absent hs]; exact Or.inl rfl
  | some s => rw [cleanup_eq_present hs]; exact Or.inr rfl

theorem wait_registry_shape (reg : Registry) (env : Env) (uid : Nat) :
    (wait_for_qr_scan reg env uid).1 = reg ∨
    (wait_for_qr_scan reg env uid).1 = dictErase reg uid := by
  cases hs : dictGet reg uid with
  | none => rw [wait_eq_notFound hs]; exact Or.inl rfl
  | some s =>
      cases h1 : signalWithinTimeout env with
      | false => rw [wait_eq_timeout hs h1]; exact Or.inr rfl
      | true =>
          cases h2 : env.authorized with
          | false => rw [wait_eq_authIncomplete hs h1 h2]; exact Or.inl rfl
          | true =>
              cases h3 : env.saveOk with
              | false => rw [wait_eq_saveFail hs h1 h2 h3]; exact Or.inr rfl
              | true =>
                  cases h4 : env.disconnectRaises with
                  | false => rw [wait_eq_confirmed hs h1 h2 h3 h4]; exact Or.inr rfl
                  | true => rw [wait_eq_disconnectFail hs h1 h2 h3 h4]; exact Or.inr rfl

/- ===================== claim C1 ===================== -/

/-- Claim C1, counterexample: the claim that every terminal outcome closes the
handle and removes the session fails on the code.  When the confirmation
signal arrives but the authorization check reports not authorized, the
waiter returns the ERROR outcome authIncomplete via the early return at
src/bot.py:355, yet the session of user 7 is still in the registry and no
disconnect of its handle was ever attempted. -/
theorem auth_incomplete_session_not_removed :
    (wait_for_qr_scan sampleReg envAuthFail 7).2.1 = WaitResult.authIncomplete ∧
    dictGet (wait_for_qr_scan sampleReg envAuthFail 7).1 7 = some sampleSession ∧
    Ev.disconnect sampleSession.client ∉
      (wait_for_qr_scan sampleReg envAuthFail 7).2.2 := by
  decide

/-- Claim C1 (amended): when the waiter reaches CONFIRMED, TIMEOUT, or an
ERROR raised as an exception, the registry afterwards has no entry for the
user and a disconnect of the session handle was attempted; on the
authorization-incomplete ERROR outcome, however, the registry is left
unchanged and the handle is not disconnected. -/
theorem wait_terminal_cleanup_except_auth_incomplete (reg : Registry)
    (env : Env) (uid : Nat) (s : QrSession)
    (hs : dictGet reg uid = some s) :
    ((wait_for_qr_scan reg env uid).2.1 ≠ WaitResult.authIncomplete →
      dictGet (wait_for_qr_scan reg env uid).1 uid = none ∧
      Ev.disconnect s.client ∈ (wait_for_qr_scan reg env uid).2.2) ∧
    ((wait_for_qr_scan reg env uid).2.1 = WaitResult.authIncomplete →
      (wait_for_qr_scan reg env uid).1 = reg ∧
      Ev.disconnect s.client ∉ (wait_for_qr_scan reg env uid).2.2) := by
  cases h1 : signalWithinTimeout env with
  | false =>
      rw [wait_eq_timeout hs h1]
      exact ⟨fun _ => ⟨dictGet_dictErase_self reg uid, by simp⟩,
             fun h => nomatch h⟩
  | true =>
      cases h2 : env.authorized with
      | false =>
          rw [wait_eq_authIncomplete hs h1 h2]
          exact ⟨fun h => absurd rfl h, fun _ => ⟨rfl, by simp⟩⟩
      | true =>
          cases h3 : env.saveOk with
          | false =>
              rw [wait_eq_saveFail hs h1 h2 h3]
              exact ⟨fun _ => ⟨dictGet_dictErase_self reg uid, by simp⟩,
                     fun h => nomatch h⟩
          | true =>
              cases h4 : env.disconnectRaises with
              | true =>
                  rw [wait_eq_disconnectFail hs h1 h2 h3 h4]
                  exact ⟨fun _ => ⟨dictGet_dictErase_self reg uid, by simp⟩,
                         fun h => nomatch h⟩
              | false =>
                  rw [wait_eq_confirmed hs h1 h2 h3 h4]
                  exact ⟨fun _ => ⟨dictGet_dictErase_self reg uid, by simp⟩,
                         fun h => nomatch h⟩

/-- Claim C1 witness: the amended theorem applied to the timeout run of the
sample session. -/
theorem wait_terminal_cleanup_except_auth_incomplete_witness :
    dictGet sampleReg 7 = some sampleSession ∧
    (((wait_for_qr_scan sampleReg envNoSignal 7).2.1 ≠ WaitResult.authIncomplete →
       dictGet (wait_for_qr_scan sampleReg envNoSignal 7).1 7 = none ∧
       Ev.disconnect sampleSession.client ∈
         (wait_for_qr_scan sampleReg envNoSignal 7).2.2) ∧
     ((wait_for_qr_scan sampleReg envNoSignal 7).2.1 = WaitResult.authIncomplete →
       (wait_for_qr_scan sampleReg envNoSignal 7).1 = sampleReg ∧
       Ev.disconnect sampleSession.client ∉
         (wait_for_qr_scan sampleReg envNoSignal 7).2.2)) :=
  ⟨by decide,
   wait_terminal_cleanup_except_auth_incomplete sampleReg envNoSignal 7
     sampleSession (by decide)⟩

/- ===================== claim C2 ===================== -/

/-- Claim C2: at every instant the registry maps each user to at most one
session (its keys are duplicate free, hence the entries filtered to any
user number at most one), and each of the three session-manager operations
preserves duplicate freeness of the keys. -/
theorem registry_at_most_one_session_per_user (db : List ApiConfig)
    (reg : Registry) (env : Env) (uid cfgId message newClient : Nat)
    (h : (regKeys reg).Nodup) :
    (∀ u, (reg.filter (fun p => p.1 == u)).length ≤ 1) ∧
    (regKeys (create_qr_session db reg env uid cfgId message newClient).1).Nodup ∧
    (regKeys (wait_for_qr_scan reg env uid).1).Nodup ∧
    (regKeys (cleanup_session env reg uid).1).Nodup := by
  refine ⟨fun u => nodup_atMostOne h u, ?_, ?_, ?_⟩
  · rcases create_registry_shape db reg env uid cfgId message newClient with
      he | ⟨s, he⟩
    · rw [he]; exact h
    · rw [he]; exact nodup_regKeys_dictInsert h
  · rcases wait_registry_shape reg env uid with he | he
    · rw [he]; exact h
    · rw [he]; exact nodup_regKeys_dictErase h
  · rcases cleanup_registry_shape env reg uid with he | he
    · rw [he]; exact h
    · rw [he]; exact nodup_regKeys_dictErase h

/-- Claim C2 witness: the invariant theorem applied to the sample registry
and a successful run. -/
theorem registry_at_most_one_session_per_user_witness :
    (regKeys sampleReg).Nodup ∧
    ((∀ u, (sampleReg.filter (fun p => p.1 == u)).length ≤ 1) ∧
     (regKeys (create_qr_session sampleDb sampleReg baseEnv 7 1 0 9).1).Nodup ∧
     (regKeys (wait_for_qr_scan sampleReg baseEnv 7).1).Nodup ∧
     (regKeys (cleanup_session baseEnv sampleReg 7).1).Nodup) :=
  ⟨by decide,
   registry_at_most_one_session_per_user sampleDb sampleReg baseEnv 7 1 0 9
     (by decide)⟩

/- ===================== claim C3 ===================== -/

/-- Claim C3, counterexample: the claim that every startSession call on a
user with an in-flight session invokes the prior disconnect exactly once
fails: when the requested api profile is absent the call returns before the
eviction step (src/bot.py:279-281), so the prior disconnect is invoked zero
times. -/
theorem start_missing_profile_skips_evict_disconnect :
    dictGet sampleReg 7 = some sampleSession ∧
    get_api_by_id sampleDb 99 = none ∧
    (create_qr_session sampleDb sampleReg baseEnv 7 99 0 9).2.2.count
      (Ev.disconnect sampleSession.client) = 0 := by
  decide

/-- Claim C3 (amended): for every user with an in-flight session, a
startSession call whose api profile resolves attempts the prior session
handle disconnect exactly once, as the very first effect, before any later
effect and in particular before the new session is stored. -/
theorem start_evicts_prior_disconnect_once_before_store (db : List ApiConfig)
    (reg : Registry) (env : Env) (uid cfgId message newClient : Nat)
    (s : QrSession) (cfg : ApiConfig)
    (hs : dictGet reg uid = some s)
    (hcfg : get_api_by_id db cfgId = some cfg) :
    ∃ rest,
      (create_qr_session db reg env uid cfgId message newClient).2.2 =
        Ev.disconnect s.client :: rest ∧
      Ev.disconnect s.client ∉ rest ∧
      (∀ url, (create_qr_session db reg env uid cfgId message newClient).2.1 =
          StartResult.ok url → Ev.store uid newClient ∈ rest) := by
  cases hc : env.connectOk with
  | false =>
      rw [create_eq_connectFail hcfg hc, evictTrace_present hs]
      exact ⟨[Ev.connect newClient], rfl, by simp, fun url h => nomatch h⟩
  | true =>
      cases hq : env.qrLoginOk with
      | false =>
          rw [create_eq_qrLoginFail hcfg hc hq, evictTrace_present hs]
          exact ⟨[Ev.connect newClient, Ev.qrLoginStart newClient], rfl,
                 by simp, fun url h => nomatch h⟩
      | true =>
          rw [create_eq_ok hcfg hc hq, evictTrace_present hs]
          exact ⟨[Ev.connect newClient, Ev.qrLoginStart newClient,
                  Ev.store uid newClient, Ev.logAction uid], rfl,
                 by simp, fun url _ => by simp⟩

/-- Claim C3 witness: the amended theorem applied to a successful restart of
the sample session. -/
theorem start_evicts_prior_disconnect_once_before_store_witness :
    (dictGet sampleReg 7 = some sampleSession ∧
     get_api_by_id sampleDb 1 = some ⟨1, "main", 12345, "0123abcd"⟩) ∧
    (∃ rest,
      (create_qr_session sampleDb sampleReg baseEnv 7 1 0 9).2.2 =
        Ev.disconnect sampleSession.client :: rest ∧
      Ev.disconnect sampleSession.client ∉ rest ∧
      (∀ url, (create_qr_session sampleDb sampleReg baseEnv 7 1 0 9).2.1 =
          StartResult.ok url → Ev.store 7 9 ∈ rest)) :=
  ⟨⟨by decide, by decide⟩,
   start_evicts_prior_disconnect_once_before_store sampleDb sampleReg baseEnv
     7 1 0 9 sampleSession ⟨1, "main", 12345, "0123abcd"⟩ (by decide) (by decide)⟩

/- ===================== claim C4 ===================== -/

/-- Claim C4: when the confirmation signal never arrives, the waiter blocks
for exactly the 120 second bound, returns the TIMEOUT outcome, the registry
afterwards has no entry for the user, and a disconnect of the session
handle was attempted. -/
theorem wait_timeout_reached_and_cleaned (reg : Registry) (env : Env)
    (uid : Nat) (s : QrSession)
    (hs : dictGet reg uid = some s) (hsig : env.signalAt = none) :
    QR_WAIT_TIMEOUT = 120 ∧
    waitDuration env = QR_WAIT_TIMEOUT ∧
    (wait_for_qr_scan reg env uid).2.1 = WaitResult.timedOut ∧
    dictGet (wait_for_qr_scan reg env uid).1 uid = none ∧
    Ev.disconnect s.client ∈ (wait_for_qr_scan reg env uid).2.2 := by
  have h1 : signalWithinTimeout env = false := by
    unfold signalWithinTimeout
    rw [hsig]
  rw [wait_eq_timeout hs h1]
  refine ⟨rfl, ?_, rfl, dictGet_dictErase_self reg uid, by simp⟩
  unfold waitDuration
  rw [hsig]

/-- Claim C4 witness: the timeout theorem applied to the sample session with
a never-arriving signal. -/
theorem wait_timeout_reached_and_cleaned_witness :
    (dictGet sampleReg 7 = some sampleSession ∧ envNoSignal.signalAt = none) ∧
    (QR_WAIT_TIMEOUT = 120 ∧
     waitDuration envNoSignal = QR_WAIT_TIMEOUT ∧
     (wait_for_qr_scan sampleReg envNoSignal 7).2.1 = WaitResult.timedOut ∧
     dictGet (wait_for_qr_scan sampleReg envNoSignal 7).1 7 = none ∧
     Ev.disconnect sampleSession.client ∈
       (wait_for_qr_scan sampleReg envNoSignal 7).2.2) :=
  ⟨⟨by decide, by decide⟩,
   wait_timeout_reached_and_cleaned sampleReg envNoSignal 7 sampleSession
     (by decide) (by decide)⟩

/- ===================== claim C5 ===================== -/

/-- Claim C5: on a confirmed and authorized handshake whose identity fetch
fails, the waiter still returns the CONFIRMED payload, with the telegram id
and phone number fields both unset, and the session is deregistered. -/
theorem identity_fetch_failure_still_confirmed (reg : Registry) (env : Env)
    (uid : Nat) (s : QrSession)
    (hs : dictGet reg uid = some s)
    (h1 : signalWithinTimeout env = true) (h2 : env.authorized = true)
    (h3 : env.saveOk = true) (h4 : env.disconnectRaises = false)
    (hid : env.identityOk = false) :
    (wait_for_qr_scan reg env uid).2.1 =
      WaitResult.confirmed env.sessionString none none s.api_name ∧
    dictGet (wait_for_qr_scan reg env uid).1 uid = none := by
  rw [wait_eq_confirmed hs h1 h2 h3 h4, hid]
  exact ⟨rfl, dictGet_dictErase_self reg uid⟩

/-- Claim C5 witness: the identity-degradation theorem applied to the sample
session with a failing get_me. -/
theorem identity_fetch_failure_still_confirmed_witness :
    (dictGet sampleReg 7 = some sampleSession ∧
     signalWithinTimeout envIdFail = true ∧ envIdFail.authorized = true ∧
     envIdFail.saveOk = true ∧ envIdFail.disconnectRaises = false ∧
     envIdFail.identityOk = false) ∧
    ((wait_for_qr_scan sampleReg envIdFail 7).2.1 =
       WaitResult.confirmed "1BVtsession" none none "main" ∧
     dictGet (wait_for_qr_scan sampleReg envIdFail 7).1 7 = none) :=
  ⟨⟨by decide, by decide, by decide, by decide, by decide, by decide⟩,
   identity_fetch_failure_still_confirmed sampleReg envIdFail 7 sampleSession
     (by decide) (by decide) (by decide) (by decide) (by decide) (by decide)⟩

/- ===================== claim C6 ===================== -/

/-- Claim C6: when the requested api profile is absent from the store,
startSession returns the profile-not-found failure with the registry
unchanged, an empty effect trace, and in particular no store of any session
for the user. -/
theorem start_profile_not_found_returns_immediately (db : List ApiConfig)
    (reg : Registry) (env : Env) (uid cfgId message newClient : Nat)
    (hcfg : get_api_by_id db cfgId = none) :
    (create_qr_session db reg env uid cfgId message newClient).1 = reg ∧
    (create_qr_session db reg env uid cfgId message newClient).2.1 =
      StartResult.apiNotFound ∧
    Ev.store uid newClient ∉
      (create_qr_session db reg env uid cfgId message newClient).2.2 ∧
    (create_qr_session db reg env uid cfgId message newClient).2.2 = [] := by
  rw [create_eq_notFound hcfg]
  exact ⟨rfl, rfl, by simp, rfl⟩

/-- Claim C6 witness: the profile-not-found theorem applied to user 9999 and
an id absent from the sample store. -/
theorem start_profile_not_found_returns_immediately_witness :
    get_api_by_id sampleDb 99 = none ∧
    ((create_qr_session sampleDb [] baseEnv 9999 99 0 9).1 = [] ∧
     (create_qr_session sampleDb [] baseEnv 9999 99 0 9).2.1 =
       StartResult.apiNotFound ∧
     Ev.store 9999 9 ∉ (create_qr_session sampleDb [] baseEnv 9999 99 0 9).2.2 ∧
     (create_qr_session sampleDb [] baseEnv 9999 99 0 9).2.2 = []) :=
  ⟨by decide,
   start_profile_not_found_returns_immediately sampleDb [] baseEnv 9999 99 0 9
     (by decide)⟩

/- ===================== claim C7 ===================== -/

/-- Claim C7, counterexample: the claim that a disconnect error never turns
the reported outcome into a failure fails on the code.  The same run that
returns CONFIRMED when the disconnect succeeds returns the generic ERROR
when the confirmed-path disconnect raises, because the call at
src/bot.py:379 sits inside the blanket except rather than its own
try/except. -/
theorem confirmed_path_disconnect_error_reported_as_failure :
    (wait_for_qr_scan sampleReg baseEnv 7).2.1 =
      WaitResult.confirmed "1BVtsession" (some 555001) (some "+15550100") "main" ∧
    (wait_for_qr_scan sampleReg envDiscRaise 7).2.1 =
      WaitResult.error "disconnect" ∧
    Ev.persist 7 ∈ (wait_for_qr_scan sampleReg envDiscRaise 7).2.2 := by
  decide

/-- Claim C7 (amended): disconnect errors during prior-session eviction in
startSession and inside cleanup are swallowed and never change any result;
a disconnect error on the CONFIRMED path of the waiter, however, is caught
by the blanket handler and turns the reported outcome into the generic
ERROR, although the credential was already persisted and the session is
still removed from the registry. -/
theorem disconnect_error_handling_amended (db : List ApiConfig)
    (reg : Registry) (env : Env) (uid cfgId message newClient : Nat)
    (s : QrSession) (b1 b2 : Bool)
    (hs : dictGet reg uid = some s) :
    (create_qr_session db reg (setEvictDisconnectRaises env b1) uid cfgId
        message newClient =
      create_qr_session db reg (setEvictDisconnectRaises env b2) uid cfgId
        message newClient) ∧
    (cleanup_session (setCleanupDisconnectRaises env b1) reg uid =
      cleanup_session (setCleanupDisconnectRaises env b2) reg uid) ∧
    (signalWithinTimeout env = true → env.authorized = true →
      env.saveOk = true → env.disconnectRaises = true →
        (wait_for_qr_scan reg env uid).2.1 = WaitResult.error "disconnect" ∧
        Ev.persist uid ∈ (wait_for_qr_scan reg env uid).2.2 ∧
        dictGet (wait_for_qr_scan reg env uid).1 uid = none) := by
  refine ⟨rfl, rfl, ?_⟩
  intro h1 h2 h3 h4
  rw [wait_eq_disconnectFail hs h1 h2 h3 h4]
  exact ⟨rfl, by simp, dictGet_dictErase_self reg uid⟩

/-- Claim C7 witness: the amended theorem applied to the sample session with
a raising confirmed-path disconnect. -/
theorem disconnect_error_handling_amended_witness :
    dictGet sampleReg 7 = some sampleSession ∧
    ((create_qr_session sampleDb sampleReg (setEvictDisconnectRaises envDiscRaise true)
        7 1 0 9 =
      create_qr_session sampleDb sampleReg (setEvictDisconnectRaises envDiscRaise false)
        7 1 0 9) ∧
     (cleanup_session (setCleanupDisconnectRaises envDiscRaise true) sampleReg 7 =
      cleanup_session (setCleanupDisconnectRaises envDiscRaise false) sampleReg 7) ∧
     (signalWithinTimeout envDiscRaise = true → envDiscRaise.authorized = true →
       envDiscRaise.saveOk = true → envDiscRaise.disconnectRaises = true →
         (wait_for_qr_scan sampleReg envDiscRaise 7).2.1 =
           WaitResult.error "disconnect" ∧
         Ev.persist 7 ∈ (wait_for_qr_scan sampleReg envDiscRaise 7).2.2 ∧
         dictGet (wait_for_qr_scan sampleReg envDiscRaise 7).1 7 = none)) :=
  ⟨by decide,
   disconnect_error_handling_amended sampleDb sampleReg envDiscRaise 7 1 0 9
     sampleSession true false (by decide)⟩

/- ===================== claim C8 ===================== -/

/-- Claim C8, counterexample: the claim that a failed handshake open leaks no
connection handle fails on the code.  When the connect succeeds but the
qr_login call raises (src/bot.py:318), the blanket except returns an error:
no session is registered, but the freshly connected handle 9 is never
disconnected by the call, so it leaks. -/
theorem qr_login_failure_leaks_connected_handle :
    (create_qr_session sampleDb [] envQrFail 7 1 0 9).2.1 =
      StartResult.error "qr_login" ∧
    (create_qr_session sampleDb [] envQrFail 7 1 0 9).1 = [] ∧
    Ev.connect 9 ∈ (create_qr_session sampleDb [] envQrFail 7 1 0 9).2.2 ∧
    Ev.disconnect 9 ∉ (create_qr_session sampleDb [] envQrFail 7 1 0 9).2.2 := by
  decide

/-- Claim C8 (amended): when opening the handshake fails at connect or at the
qr_login step, no new session is registered (the registry is unchanged and
no store of the fresh handle occurs) and an error is returned; the fresh
handle is never disconnected by the call, so when the failure happens after
a successful connect the connected handle is leaked. -/
theorem open_failure_no_session_registered (db : List ApiConfig)
    (reg : Registry) (env : Env) (uid cfgId message newClient : Nat)
    (cfg : ApiConfig)
    (hcfg : get_api_by_id db cfgId = some cfg)
    (hfresh : ∀ p ∈ reg, p.2.client ≠ newClient)
    (hfail : env.connectOk = false ∨ env.qrLoginOk = false) :
    (create_qr_session db reg env uid cfgId message newClient).1 = reg ∧
    Ev.store uid newClient ∉
      (create_qr_session db reg env uid cfgId message newClient).2.2 ∧
    Ev.disconnect newClient ∉
      (create_qr_session db reg env uid cfgId message newClient).2.2 ∧
    (env.connectOk = true →
      Ev.connect newClient ∈
        (create_qr_session db reg env uid cfgId message newClient).2.2) := by
  have hevict : Ev.disconnect newClient ∉ evictTrace reg uid ∧
      Ev.store uid newClient ∉ evictTrace reg uid := by
    cases hg : dictGet reg uid with
    | none =>
        rw [evictTrace_absent hg]
        exact ⟨by simp, by simp⟩
    | some t =>
        rw [evictTrace_present hg]
        constructor
        · intro hmem
          have heq : Ev.disconnect newClient = Ev.disconnect t.client := by
            simpa using hmem
          have hne := hfresh (uid, t) (dictGet_mem hg)
          injection heq with heq2
          exact hne heq2.symm
        · simp
  rcases hfail with hc | hq
  · rw [create_eq_connectFail hcfg hc]
    exact ⟨rfl, by simp [hevict.2], by simp [hevict.1], fun _ => by simp⟩
  · cases hc : env.connectOk with
    | false =>
        rw [create_eq_connectFail hcfg hc]
        exact ⟨rfl, by simp [hevict.2], by simp [hevict.1], fun _ => by simp⟩
    | true =>
        rw [create_eq_qrLoginFail hcfg hc hq]
        exact ⟨rfl, by simp [hevict.2], by simp [hevict.1], fun _ => by simp⟩

/-- Claim C8 witness: the amended theorem applied to a qr_login failure over
the sample registry. -/
theorem open_failure_no_session_registered_witness :
    (get_api_by_id sampleDb 1 = some ⟨1, "main", 12345, "0123abcd"⟩ ∧
     (∀ p ∈ sampleReg, p.2.client ≠ 9) ∧
     (envQrFail.connectOk = false ∨ envQrFail.qrLoginOk = false)) ∧
    ((create_qr_session sampleDb sampleReg envQrFail 7 1 0 9).1 = sampleReg ∧
     Ev.store 7 9 ∉ (create_qr_session sampleDb sampleReg envQrFail 7 1 0 9).2.2 ∧
     Ev.disconnect 9 ∉
       (create_qr_session sampleDb sampleReg envQrFail 7 1 0 9).2.2 ∧
     (envQrFail.connectOk = true →
       Ev.connect 9 ∈
         (create_qr_session sampleDb sampleReg envQrFail 7 1 0 9).2.2)) :=
  ⟨⟨by decide, by decide, by decide⟩,
   open_failure_no_session_registered sampleDb sampleReg envQrFail 7 1 0 9
     ⟨1, "main", 12345, "0123abcd"⟩ (by decide) (by decide) (by decide)⟩

/- ===================== claim C9 ===================== -/

/-- Claim C9: on every run whose outcome is CONFIRMED, the effect trace of
the waiter is exactly wait, grace sleep, authorization check, identity
fetch, persist, disconnect, registry removal: the credential is handed to
storage before the handle is closed and before the session leaves the
registry. -/
theorem confirmed_persists_before_close_and_remove (reg : Registry)
    (env : Env) (uid : Nat) (s : QrSession)
    (hs : dictGet reg uid = some s)
    (hconf : ∃ ss tid ph an, (wait_for_qr_scan reg env uid).2.1 =
        WaitResult.confirmed ss tid ph an) :
    (wait_for_qr_scan reg env uid).2.2 =
      [Ev.waitScan uid, Ev.sleepGrace, Ev.checkAuth s.client,
       Ev.fetchIdentity s.client, Ev.persist uid, Ev.disconnect s.client,
       Ev.removeEntry uid] := by
  rcases hconf with ⟨ss, tid, ph, an, hconf⟩
  cases h1 : signalWithinTimeout env with
  | false =>
      rw [wait_eq_timeout hs h1] at hconf
      exact nomatch hconf
  | true =>
      cases h2 : env.authorized with
      | false =>
          rw [wait_eq_authIncomplete hs h1 h2] at hconf
          exact nomatch hconf
      | true =>
          cases h3 : env.saveOk with
          | false =>
              rw [wait_eq_saveFail hs h1 h2 h3] at hconf
              exact nomatch hconf
          | true =>
              cases h4 : env.disconnectRaises with
              | true =>
                  rw [wait_eq_disconnectFail hs h1 h2 h3 h4] at hconf
                  exact nomatch hconf
              | false =>
                  rw [wait_eq_confirmed hs h1 h2 h3 h4]

/-- Claim C9 witness: the ordering theorem applied to the fully successful
sample run. -/
theorem confirmed_persists_before_close_and_remove_witness :
    (∃ ss tid ph an, (wait_for_qr_scan sampleReg baseEnv 7).2.1 =
        WaitResult.confirmed ss tid ph an) ∧
    (wait_for_qr_scan sampleReg baseEnv 7).2.2 =
      [Ev.waitScan 7, Ev.sleepGrace, Ev.checkAuth 5, Ev.fetchIdentity 5,
       Ev.persist 7, Ev.disconnect 5, Ev.removeEntry 7] :=
  ⟨⟨"1BVtsession", some 555001, some "+15550100", "main", by decide⟩,
   confirmed_persists_before_close_and_remove sampleReg baseEnv 7 sampleSession
     (by decide)
     ⟨"1BVtsession", some 555001, some "+15550100", "main", by decide⟩⟩

/- ===================== claim C10 ===================== -/

/-- Claim C10: a startSession call that fails with profile-not-found leaves
an existing in-flight session of the user completely untouched: the
registry is unchanged, the entry is still present, the effect trace is
empty (so no disconnect of the existing handle), and the failure is
returned. -/
theorem profile_not_found_leaves_existing_session_untouched
    (db : List ApiConfig) (reg : Registry) (env : Env)
    (uid cfgId message newClient : Nat) (s : QrSession)
    (hs : dictGet reg uid = some s)
    (hcfg : get_api_by_id db cfgId = none) :
    (create_qr_session db reg env uid cfgId message newClient).1 = reg ∧
    dictGet (create_qr_session db reg env uid cfgId message newClient).1 uid =
      some s ∧
    (create_qr_session db reg env uid cfgId message newClient).2.2 = [] ∧
    (create_qr_session db reg env uid cfgId message newClient).2.1 =
      StartResult.apiNotFound := by
  rw [create_eq_notFound hcfg]
  exact ⟨rfl, hs, rfl, rfl⟩

/-- Claim C10 witness: the untouched-session theorem applied to the sample
session and a missing profile id. -/
theorem profile_not_found_leaves_existing_session_untouched_witness :
    (dictGet sampleReg 7 = some sampleSession ∧
     get_api_by_id sampleDb 99 = none) ∧
    ((create_qr_session sampleDb sampleReg envAuthFail 7 99 0 9).1 = sampleReg ∧
     dictGet (create_qr_session sampleDb sampleReg envAuthFail 7 99 0 9).1 7 =
       some sampleSession ∧
     (create_qr_session sampleDb sampleReg envAuthFail 7 99 0 9).2.2 = [] ∧
     (create_qr_session sampleDb sampleReg envAuthFail 7 99 0 9).2.1 =
       StartResult.apiNotFound) :=
  ⟨⟨by decide, by decide⟩,
   profile_not_found_leaves_existing_session_untouched sampleDb sampleReg
     envAuthFail 7 99 0 9 sampleSession (by decide) (by decide)⟩

end RassylkaBot
